import Mathlib

/-!
Verification development for the Tote label generator (`src/tote.py`).

The transformation pipeline is embedded shallowly:
* column-name resolution (`find_column`, lines 88-95) over a header of strings;
* per-row field extraction (`extract_line_location_components`,
  `extract_store_location_components`, lines 97-153, and the basic-field
  extraction of lines 240-242);
* QR payload construction (lines 250-253) and description truncation
  (line 273);
* the per-row element list with page breaks (lines 227-229, 407-415);
* the temporary-file lifecycle of `generate_sticker_labels` / `main`
  (lines 216-218, 417-426, 483-504).

External collaborators (pandas parsing, reportlab rendering, the qrcode
library) are abstracted: cell values are an inductive type, the QR encoder is
a success predicate on payloads, and the renderer's page accounting is
modelled from the spec.
-/

namespace Tote

/-! ### Case-insensitive substring matching (Python `keyword.upper() in col.upper()`) -/

/-- Python `s.upper()`, restricted to per-character uppercasing. -/
def upperStr (s : String) : String := String.mk (s.data.map Char.toUpper)

/-- Executable check that `n` is a leading segment of `h`. -/
def prefCL : List Char → List Char → Bool
  | [], _ => true
  | _ :: _, [] => false
  | a :: as, b :: bs => a == b && prefCL as bs

/-- Executable substring containment: Python's `n in h` on strings. -/
def containsSub (needle : List Char) : List Char → Bool
  | [] => needle.isEmpty
  | c :: rest => prefCL needle (c :: rest) || containsSub needle rest

/-- The test `keyword.upper() in col.upper()` from `find_column` (line 93). -/
def containsCI (col keyword : String) : Bool :=
  containsSub (upperStr keyword).data (upperStr col).data

theorem prefCL_iff (n h : List Char) : prefCL n h = true ↔ n <+: h := by
  induction n generalizing h with
  | nil => simp [prefCL]
  | cons a as ih =>
    cases h with
    | nil => simp [prefCL]
    | cons b bs =>
      simp only [prefCL, Bool.and_eq_true, beq_iff_eq, ih, List.cons_prefix_cons]

theorem containsSub_iff (n h : List Char) : containsSub n h = true ↔ n <:+: h := by
  induction h with
  | nil =>
    simp only [containsSub, List.isEmpty_iff, List.infix_nil]
  | cons c rest ih =>
    simp only [containsSub, Bool.or_eq_true, prefCL_iff, ih, List.infix_cons_iff]

/-! ### Cells and rows

A pandas cell is either missing (`NaN`, for which `pd.notna` is false and
`str(...)` is `"nan"`), a string, or an integer. A row is the sequence of
(column label, cell) pairs of one DataFrame record. -/

inductive CellValue where
  | null
  | text (s : String)
  | num (n : Int)
deriving DecidableEq

/-- Pandas `pd.notna` on a cell. -/
def notna : CellValue → Bool
  | .null => false
  | .text _ => true
  | .num _ => true

/-- Python `str(...)` on a cell (`str(float('nan')) = "nan"`). -/
def pyStr : CellValue → String
  | .null => "nan"
  | .text s => s
  | .num n => toString n

abbrev Row : Type := List (String × CellValue)

/-- Lookup `row[col]` when the label is present: first cell under that label. -/
def Row.get? (r : Row) (c : String) : Option CellValue :=
  (List.find? (fun p => p.1 == c) r).map (fun p => p.2)

/-- Python `col in row` on a pandas Series: label membership. -/
def Row.hasCol (r : Row) (c : String) : Bool :=
  (Row.get? r c).isSome

/-! ### Column resolution (`find_column`, lines 88-95) -/

/-- Function `find_column(df, keywords)`: scan keywords in priority order and, for each,
the header columns in order; return the first column whose uppercased text
contains the uppercased keyword, else `None`. -/
def find_column (cols : List String) (keywords : List String) : Option String :=
  keywords.findSome? (fun keyword => cols.find? (fun col => containsCI col keyword))

/-! ### Keyword lists (lines 177-201) -/

def part_no_keywords : List String := ["PART NO", "PARTNO", "PART", "PART_NO", "PART#"]

def desc_keywords : List String := ["PART DESC", "DESC", "DESCRIPTION", "NAME", "PRODUCT_NAME"]

def qty_bin_keywords : List String := ["QTY/BIN", "QTY_BIN", "QTYBIN", "QTY", "QUANTITY"]

def model_keywords : List String := ["MODEL", "BUS MODEL", "BUS_MODEL", "BUSMODEL", "BUS"]

def station_no_keywords : List String := ["STATION NO", "STATION_NO", "STATIONNO", "STATION"]

def rack_keywords : List String := ["RACK"]

def rack_no_1st_keywords : List String :=
  ["RACK NO. (1ST DIGIT)", "RACK NO (1ST DIGIT)", "RACK_NO_1ST", "RACK NO 1ST"]

def rack_no_2nd_keywords : List String :=
  ["RACK NO. (2ND DIGIT)", "RACK NO (2ND DIGIT)", "RACK_NO_2ND", "RACK NO 2ND"]

def level_keywords : List String := ["LEVEL"]

def cell_keywords : List String := ["CELL"]

def abb_zone_keywords : List String :=
  ["ABB FOR ZONE", "ABB_FOR_ZONE", "ABB ZONE", "ABB_ZONE", "ABBZONE", "ZONE"]

def abb_location_keywords : List String :=
  ["ABB FOR LOCATION", "ABB_FOR_LOCATION", "ABB LOCATION", "ABB_LOCATION", "ABBLOCATION"]

def abb_floor_keywords : List String :=
  ["ABB FOR FLOOR", "ABB_FOR_FLOOR", "ABB FLOOR", "ABB_FLOOR", "ABBFLOOR", "FLOOR"]

def abb_rack_no_keywords : List String :=
  ["ABB FOR RACK NO", "ABB_FOR_RACK_NO", "ABB RACK NO", "ABB_RACK_NO", "ABBRACKNO", "ABB RACK"]

def abb_level_in_rack_keywords : List String :=
  ["ABB FOR LEVEL IN RACK", "ABB_FOR_LEVEL_IN_RACK", "ABB LEVEL IN RACK", "ABB_LEVEL_IN_RACK",
   "ABBLEVELINRACK", "ABB LEVEL"]

def abb_cell_keywords : List String :=
  ["ABB FOR CELL", "ABB_FOR_CELL", "ABB CELL", "ABB_CELL", "ABBCELL"]

def abb_no_keywords : List String :=
  ["ABB FOR NO", "ABB_FOR_NO", "ABB NO", "ABB_NO", "ABBNO", "ABB NUMBER"]

/-! ### Resolved column maps (lines 177-201) -/

/-- The `line_location_columns` dict (lines 182-190): each value is the column
name returned by `find_column`, or `None`. -/
structure LineCols where
  model : Option String
  station_no : Option String
  rack : Option String
  rack_no_1st : Option String
  rack_no_2nd : Option String
  level : Option String
  cell : Option String
deriving DecidableEq

/-- The `store_location_columns` dict (lines 193-201). -/
structure StoreCols where
  abb_zone : Option String
  abb_location : Option String
  abb_floor : Option String
  abb_rack_no : Option String
  abb_level_in_rack : Option String
  abb_cell : Option String
  abb_no : Option String
deriving DecidableEq

/-- All columns resolved once per table (lines 177-201). -/
structure ColumnMap where
  part_no_col : Option String
  desc_col : Option String
  qty_bin_col : Option String
  line : LineCols
  store : StoreCols
deriving DecidableEq

def resolve_line_cols (cols : List String) : LineCols :=
  { model := find_column cols model_keywords
    station_no := find_column cols station_no_keywords
    rack := find_column cols rack_keywords
    rack_no_1st := find_column cols rack_no_1st_keywords
    rack_no_2nd := find_column cols rack_no_2nd_keywords
    level := find_column cols level_keywords
    cell := find_column cols cell_keywords }

def resolve_store_cols (cols : List String) : StoreCols :=
  { abb_zone := find_column cols abb_zone_keywords
    abb_location := find_column cols abb_location_keywords
    abb_floor := find_column cols abb_floor_keywords
    abb_rack_no := find_column cols abb_rack_no_keywords
    abb_level_in_rack := find_column cols abb_level_in_rack_keywords
    abb_cell := find_column cols abb_cell_keywords
    abb_no := find_column cols abb_no_keywords }

def resolve_columns (cols : List String) : ColumnMap :=
  { part_no_col := find_column cols part_no_keywords
    desc_col := find_column cols desc_keywords
    qty_bin_col := find_column cols qty_bin_keywords
    line := resolve_line_cols cols
    store := resolve_store_cols cols }

/-! ### Per-row field extraction (lines 97-153 and 240-242) -/

/-- The repeated pattern of lines 102-123 / 132-151 and of `qty_bin`
(line 242): `str(row[c]) if columns[k] and columns[k] in row and
pd.notna(row[c]) else ""`. Python truthiness makes an empty-string column
name behave like `None`. -/
def extractCell (r : Row) (c : Option String) : String :=
  match c with
  | none => ""
  | some s =>
    if s = "" then ""
    else
      match Row.get? r s with
      | none => ""
      | some v => if notna v then pyStr v else ""

/-- The pattern of lines 240-241: `str(row[c]) if c and c in row else ""` —
no `pd.notna` guard, so a missing value is stringified to `"nan"`. -/
def extractBasicNoNa (r : Row) (c : Option String) : String :=
  match c with
  | none => ""
  | some s =>
    if s = "" then ""
    else
      match Row.get? r s with
      | none => ""
      | some v => pyStr v

/-- Function `extract_line_location_components` (lines 97-125): a 7-slot list,
slot by slot from the resolved columns. -/
def extract_line_location_components (r : Row) (columns : LineCols) : List String :=
  [extractCell r columns.model,
   extractCell r columns.station_no,
   extractCell r columns.rack,
   extractCell r columns.rack_no_1st,
   extractCell r columns.rack_no_2nd,
   extractCell r columns.level,
   extractCell r columns.cell]

/-- Function `extract_store_location_components` (lines 127-153). -/
def extract_store_location_components (r : Row) (columns : StoreCols) : List String :=
  [extractCell r columns.abb_zone,
   extractCell r columns.abb_location,
   extractCell r columns.abb_floor,
   extractCell r columns.abb_rack_no,
   extractCell r columns.abb_level_in_rack,
   extractCell r columns.abb_cell,
   extractCell r columns.abb_no]

/-- The 7 line-location slots in their fixed order, as resolved columns. -/
def lineColsList (c : LineCols) : List (Option String) :=
  [c.model, c.station_no, c.rack, c.rack_no_1st, c.rack_no_2nd, c.level, c.cell]

/-- The 7 store-location slots in their fixed order, as resolved columns. -/
def storeColsList (c : StoreCols) : List (Option String) :=
  [c.abb_zone, c.abb_location, c.abb_floor, c.abb_rack_no, c.abb_level_in_rack,
   c.abb_cell, c.abb_no]

/-! ### Sticker records and the QR payload (lines 240-253) -/

structure Sticker where
  part_no : String
  desc : String
  qty_bin : String
  lineParts : List String
  storeParts : List String
  qr_data : String
deriving DecidableEq

/-- The f-string template of lines 251-253: `qr_data` starts as
`f"Part No: {part_no}\nDescription: {desc}\nQTY/BIN: {qty_bin}\n"` and the two
location lines are appended, each strip joined by `' | '.join(...)`. -/
def payloadTemplate (part_no desc qty_bin : String)
    (line_location_parts store_location_parts : List String) : String :=
  ("Part No: " ++ part_no ++ "\nDescription: " ++ desc ++ "\nQTY/BIN: " ++ qty_bin ++ "\n")
    ++ ("Line Location: " ++ String.intercalate " | " line_location_parts ++ "\n")
    ++ ("Store Location: " ++ String.intercalate " | " store_location_parts)

/-- Lines 240-253 of the per-row loop: basic fields, the two location strips,
and the QR payload assembled by the f-string template. -/
def buildSticker (cm : ColumnMap) (r : Row) : Sticker :=
  let part_no := extractBasicNoNa r cm.part_no_col
  let desc := extractBasicNoNa r cm.desc_col
  let qty_bin := extractCell r cm.qty_bin_col
  let line_location_parts := extract_line_location_components r cm.line
  let store_location_parts := extract_store_location_components r cm.store
  let qr_data :=
    payloadTemplate part_no desc qty_bin line_location_parts store_location_parts
  { part_no := part_no, desc := desc, qty_bin := qty_bin,
    lineParts := line_location_parts, storeParts := store_location_parts,
    qr_data := qr_data }

/-- Line 273: `desc[:30] + "..." if len(desc) > 30 else desc`. -/
def renderDesc (desc : String) : String :=
  if desc.length > 30 then String.mk (desc.data.take 30) ++ "..." else desc

/-! ### The story of flowables (lines 227-229, 255, 374-415)

`generate_qr_code` (lines 59-86) calls the external qrcode/PIL stack inside a
`try` and returns `None` on any exception; the external encoder's outcome is
abstracted as a predicate `qrOk` on payload strings. The flowables a row
contributes are a spacer and the final content table, which carries either the
QR image or the `"QR"` placeholder paragraph (lines 374-388). -/

inductive QRCell where
  | image (payload : String)
  | placeholder
deriving DecidableEq

/-- Function `generate_qr_code(data_string)` (lines 59-86): `Image(...)` on success,
`None` when the external encoder raises. -/
def generate_qr_code (qrOk : String → Bool) (data_string : String) : Option String :=
  if qrOk data_string then some data_string else none

inductive Elem where
  | spacer
  | sticker (s : Sticker) (q : QRCell)
  | pageBreak
deriving DecidableEq

/-- Lines 237-411 of the loop body for one row: the spacer and the final
table, whose QR cell is the image when `generate_qr_code` succeeded and the
placeholder otherwise. -/
def rowBlock (qrOk : String → Bool) (cm : ColumnMap) (r : Row) : List Elem :=
  let s := buildSticker cm r
  let qrCell :=
    match generate_qr_code qrOk s.qr_data with
    | some payload => QRCell.image payload
    | none => QRCell.placeholder
  [Elem.spacer, Elem.sticker s qrCell]

/-- The loop of lines 229-415 over `(index, row)` pairs: each row appends its
block, then a `PageBreak` when `index < len(df) - 1`. `i` is the current
index, `n` the total row count. -/
def loopElems (qrOk : String → Bool) (cm : ColumnMap) : List Row → Nat → Nat → List Elem
  | [], _, _ => []
  | r :: rs, i, n =>
    rowBlock qrOk cm r ++ (if i < n - 1 then [Elem.pageBreak] else [])
      ++ loopElems qrOk cm rs (i + 1) n

/-- The `all_elements` list as assembled by `generate_sticker_labels` (lines 225-415). -/
def generate_elements (qrOk : String → Bool) (cm : ColumnMap) (rows : List Row) : List Elem :=
  loopElems qrOk cm rows 0 rows.length

/-- Blocks joined with a single page break between adjacent blocks and none
at the end: the shape the spec ascribes to the story. -/
def joinPages : List (List Elem) → List Elem
  | [] => []
  | [b] => b
  | b :: b' :: bs => b ++ Elem.pageBreak :: joinPages (b' :: bs)

def isBreak : Elem → Bool
  | .pageBreak => true
  | _ => false

def isStickerElem : Elem → Bool
  | .sticker _ _ => true
  | _ => false

def countBreaks (els : List Elem) : Nat := els.countP isBreak

def countStickers (els : List Elem) : Nat := els.countP isStickerElem

/-- Modelled from the spec: the document renderer (`SimpleDocTemplate.build`,
an external collaborator) emits, for a nonempty story, one page per explicit
page break plus the final page. -/
def pageCount (els : List Elem) : Nat := countBreaks els + 1

/-! ### Temporary-file lifecycle (lines 216-218, 417-426, 483-504) -/

/-- The slice of filesystem state the pipeline touches: whether the
per-invocation temporary PDF file currently exists. -/
structure FileState where
  tempExists : Bool
deriving DecidableEq

/-- Resource behaviour of `generate_sticker_labels` (lines 216-218, 417-426):
a fresh `NamedTemporaryFile(delete=False)` is created; `doc.build` either
succeeds (the temp path is returned) or raises (caught; `None` is returned).
The function itself never deletes the file. `buildOk` abstracts the external
builder's outcome. -/
def generate_sticker_labels_resource (buildOk : Bool) : FileState × Option String :=
  let st : FileState := { tempExists := true }
  if buildOk then (st, some "temp.pdf") else (st, none)

/-- The generation branch of `main` (lines 483-504): when a path is returned
the PDF is read back, the temp file unlinked (line 491) and the download
offered; on `None` an error is reported and nothing else happens. Returns the
final file state and whether an output document was produced. -/
def main_generate (buildOk : Bool) : FileState × Bool :=
  match generate_sticker_labels_resource buildOk with
  | (st, some _) => ({ st with tempExists := false }, true)
  | (st, none) => (st, false)

/-! ### The concrete 2-row table of the end-to-end scenario -/

def c4_header : List String :=
  ["PART NO", "DESC", "QTY", "MODEL", "STATION NO", "RACK", "LEVEL", "CELL",
   "ABB FOR ZONE", "ABB FOR LOCATION", "ABB FOR FLOOR", "ABB FOR RACK NO",
   "ABB FOR LEVEL IN RACK", "ABB FOR CELL", "ABB FOR NO"]

/-- First scenario row: values
`("A100", "Bolt M6", 50, "X1", "S3", "R2", "", "L4", "", "", ...)` paired with
the header columns in order. -/
def c4_row1 : Row :=
  [("PART NO", .text "A100"), ("DESC", .text "Bolt M6"), ("QTY", .num 50),
   ("MODEL", .text "X1"), ("STATION NO", .text "S3"), ("RACK", .text "R2"),
   ("LEVEL", .text ""), ("CELL", .text "L4"),
   ("ABB FOR ZONE", .text ""), ("ABB FOR LOCATION", .text ""), ("ABB FOR FLOOR", .text ""),
   ("ABB FOR RACK NO", .text ""), ("ABB FOR LEVEL IN RACK", .text ""),
   ("ABB FOR CELL", .text ""), ("ABB FOR NO", .text "")]

/-- Second scenario row (the scenario fixes only the first row's values). -/
def c4_row2 : Row :=
  [("PART NO", .text "B200"), ("DESC", .text "Nut M8"), ("QTY", .num 20),
   ("MODEL", .text "X1"), ("STATION NO", .text "S4"), ("RACK", .text "R3"),
   ("LEVEL", .text ""), ("CELL", .text "L5"),
   ("ABB FOR ZONE", .text ""), ("ABB FOR LOCATION", .text ""), ("ABB FOR FLOOR", .text ""),
   ("ABB FOR RACK NO", .text ""), ("ABB FOR LEVEL IN RACK", .text ""),
   ("ABB FOR CELL", .text ""), ("ABB FOR NO", .text "")]

def c4_rows : List Row := [c4_row1, c4_row2]

/-! ## Helper lemmas -/

theorem containsCI_iff (col keyword : String) :
    containsCI col keyword = true ↔ (upperStr keyword).data <:+: (upperStr col).data :=
  containsSub_iff _ _

theorem buildSticker_part_no (cm : ColumnMap) (r : Row) :
    (buildSticker cm r).part_no = extractBasicNoNa r cm.part_no_col := rfl

theorem buildSticker_desc (cm : ColumnMap) (r : Row) :
    (buildSticker cm r).desc = extractBasicNoNa r cm.desc_col := rfl

theorem buildSticker_qty_bin (cm : ColumnMap) (r : Row) :
    (buildSticker cm r).qty_bin = extractCell r cm.qty_bin_col := rfl

theorem buildSticker_lineParts (cm : ColumnMap) (r : Row) :
    (buildSticker cm r).lineParts = extract_line_location_components r cm.line := rfl

theorem buildSticker_storeParts (cm : ColumnMap) (r : Row) :
    (buildSticker cm r).storeParts = extract_store_location_components r cm.store := rfl

theorem buildSticker_qr_data (cm : ColumnMap) (r : Row) :
    (buildSticker cm r).qr_data
      = payloadTemplate (buildSticker cm r).part_no (buildSticker cm r).desc
          (buildSticker cm r).qty_bin (buildSticker cm r).lineParts
          (buildSticker cm r).storeParts := rfl

theorem resolve_columns_qty_bin (cols : List String) :
    (resolve_columns cols).qty_bin_col = find_column cols qty_bin_keywords := rfl

/-- The payload, flattened to its character sequence: labels, fields and the
`" | "`-joined strips in the fixed order. -/
theorem payloadTemplate_data (p d q : String) (l s : List String) :
    (payloadTemplate p d q l s).data
      = "Part No: ".data ++ p.data ++ "\nDescription: ".data ++ d.data
        ++ "\nQTY/BIN: ".data ++ q.data ++ "\n".data
        ++ "Line Location: ".data ++ (String.intercalate " | " l).data ++ "\n".data
        ++ "Store Location: ".data ++ (String.intercalate " | " s).data := by
  simp [payloadTemplate, String.data_append, List.append_assoc]

/-! ## C1: the column resolver -/

/-- C1. `find_column` returns the first header column, scanning aliases in
priority order and, per alias, columns in header order, whose text contains
the alias case-insensitively; it returns `none` exactly when no column
contains any alias, raising no error. -/
theorem find_column_spec (cols keywords : List String) :
    (find_column cols keywords = none ↔
      ∀ k ∈ keywords, ∀ c ∈ cols, ¬ (upperStr k).data <:+: (upperStr c).data) ∧
    (∀ col, find_column cols keywords = some col →
      ∃ ks₁ k ks₂ cs₁ cs₂,
        keywords = ks₁ ++ k :: ks₂ ∧
        cols = cs₁ ++ col :: cs₂ ∧
        (upperStr k).data <:+: (upperStr col).data ∧
        (∀ k' ∈ ks₁, ∀ c ∈ cols, ¬ (upperStr k').data <:+: (upperStr c).data) ∧
        (∀ c ∈ cs₁, ¬ (upperStr k).data <:+: (upperStr c).data)) := by
  constructor
  · simp only [find_column, List.findSome?_eq_none_iff, List.find?_eq_none, containsCI_iff]
  · intro col h
    rw [find_column, List.findSome?_eq_some_iff] at h
    obtain ⟨ks₁, k, ks₂, hks, hfk, hnone⟩ := h
    rw [List.find?_eq_some] at hfk
    obtain ⟨hpk, cs₁, cs₂, hcs, hpre⟩ := hfk
    refine ⟨ks₁, k, ks₂, cs₁, cs₂, hks, hcs, (containsCI_iff _ _).1 hpk, ?_, ?_⟩
    · intro k' hk' c hc
      have h2 := hnone k' hk'
      rw [List.find?_eq_none] at h2
      simpa [containsCI_iff] using h2 c hc
    · intro c hc hin
      have h3 := hpre c hc
      have h4 := (containsCI_iff c k).2 hin
      simp [h4] at h3

/-- Witness for C1 at a concrete header and alias list. -/
theorem find_column_spec_witness :
    ∃ ks₁ k ks₂ cs₁ cs₂,
      (["PART"] : List String) = ks₁ ++ k :: ks₂ ∧
      (["ITEM", "PART NO"] : List String) = cs₁ ++ "PART NO" :: cs₂ ∧
      (upperStr k).data <:+: (upperStr "PART NO").data ∧
      (∀ k' ∈ ks₁, ∀ c ∈ (["ITEM", "PART NO"] : List String),
        ¬ (upperStr k').data <:+: (upperStr c).data) ∧
      (∀ c ∈ cs₁, ¬ (upperStr k).data <:+: (upperStr c).data) :=
  (find_column_spec ["ITEM", "PART NO"] ["PART"]).2 "PART NO" (by decide)

/-! ## C2: the two location strips -/

/-- C2 counterexample. The claim quantifies over every column map; a map whose
model column resolved to the empty string is not the unresolved value `none`,
the column is present in the row and its cell is non-null, yet the extracted
entry is the empty string rather than the stringified cell, because Python
truthiness makes `if columns['model'] and ...` skip the assignment. -/
theorem extract_truthiness_counterexample :
    (let lc : LineCols := ⟨some "", none, none, none, none, none, none⟩
     let r : Row := [("", CellValue.text "x")]
     lc.model ≠ none ∧
     Row.hasCol r "" = true ∧
     Row.get? r "" = some (CellValue.text "x") ∧
     notna (CellValue.text "x") = true ∧
     pyStr (CellValue.text "x") ≠ "" ∧
     extract_line_location_components r lc = ["", "", "", "", "", "", ""]) := by
  decide

/-- C2 amended. Both strips always have exactly 7 entries; each entry is the
extraction of its slot's resolved column, and that extraction yields the empty
string when the slot is unresolved, resolved to the empty-string name (Python
truthiness), absent from the row, or null, and the stringified cell value
otherwise. -/
theorem extract_components_spec (lc : LineCols) (sc : StoreCols) (r : Row) :
    (extract_line_location_components r lc).length = 7 ∧
    (extract_store_location_components r sc).length = 7 ∧
    (∀ i, i < 7 →
      (extract_line_location_components r lc).getD i ""
        = extractCell r ((lineColsList lc).getD i none)) ∧
    (∀ i, i < 7 →
      (extract_store_location_components r sc).getD i ""
        = extractCell r ((storeColsList sc).getD i none)) ∧
    extractCell r none = "" ∧
    extractCell r (some "") = "" ∧
    (∀ s, s ≠ "" → Row.get? r s = none → extractCell r (some s) = "") ∧
    (∀ s v, s ≠ "" → Row.get? r s = some v → notna v = false →
      extractCell r (some s) = "") ∧
    (∀ s v, s ≠ "" → Row.get? r s = some v → notna v = true →
      extractCell r (some s) = pyStr v) := by
  refine ⟨rfl, rfl, ?_, ?_, rfl, by simp [extractCell], ?_, ?_, ?_⟩
  · intro i hi
    interval_cases i <;> rfl
  · intro i hi
    interval_cases i <;> rfl
  · intro s hs hget
    simp [extractCell, hs, hget]
  · intro s v hs hget hv
    simp [extractCell, hs, hget, hv]
  · intro s v hs hget hv
    simp [extractCell, hs, hget, hv]

/-- Witness for C2 at a concrete column map and row. -/
theorem extract_components_spec_witness :
    (extract_line_location_components [("M", CellValue.text "v")]
        ⟨some "M", none, none, none, none, none, none⟩).length = 7 ∧
    (extract_line_location_components [("M", CellValue.text "v")]
        ⟨some "M", none, none, none, none, none, none⟩).getD 0 ""
      = extractCell [("M", CellValue.text "v")]
          ((lineColsList ⟨some "M", none, none, none, none, none, none⟩).getD 0 none) ∧
    extractCell [("M", CellValue.text "v")] (some "M") = pyStr (CellValue.text "v") := by
  have h := extract_components_spec ⟨some "M", none, none, none, none, none, none⟩
    ⟨none, none, none, none, none, none, none⟩ [("M", CellValue.text "v")]
  exact ⟨h.1, h.2.2.1 0 (by decide),
    h.2.2.2.2.2.2.2.2 "M" (CellValue.text "v") (by decide) (by decide) (by decide)⟩

/-! ## C3: one page per row, breaks only between pages -/

theorem countBreaks_append (l₁ l₂ : List Elem) :
    countBreaks (l₁ ++ l₂) = countBreaks l₁ + countBreaks l₂ :=
  List.countP_append _ _ _

theorem countBreaks_cons_break (l : List Elem) :
    countBreaks (Elem.pageBreak :: l) = countBreaks l + 1 := by
  simp [countBreaks, List.countP_cons, isBreak]

theorem countStickers_append (l₁ l₂ : List Elem) :
    countStickers (l₁ ++ l₂) = countStickers l₁ + countStickers l₂ :=
  List.countP_append _ _ _

theorem countStickers_cons_break (l : List Elem) :
    countStickers (Elem.pageBreak :: l) = countStickers l := by
  simp [countStickers, List.countP_cons, isStickerElem]

theorem countBreaks_rowBlock (qrOk : String → Bool) (cm : ColumnMap) (r : Row) :
    countBreaks (rowBlock qrOk cm r) = 0 := rfl

theorem countStickers_rowBlock (qrOk : String → Bool) (cm : ColumnMap) (r : Row) :
    countStickers (rowBlock qrOk cm r) = 1 := rfl

theorem rowBlock_ne_nil (qrOk : String → Bool) (cm : ColumnMap) (r : Row) :
    rowBlock qrOk cm r ≠ [] := by
  simp [rowBlock]

theorem rowBlock_last_ne (qrOk : String → Bool) (cm : ColumnMap) (r : Row) :
    (rowBlock qrOk cm r).getLast? ≠ some Elem.pageBreak := by
  simp [rowBlock]

theorem joinPages_ne_nil : ∀ (b : List Elem) (bs : List (List Elem)),
    b ≠ [] → joinPages (b :: bs) ≠ []
  | b, [], hb => by simpa [joinPages] using hb
  | _, _ :: _, _ => by simp [joinPages]

theorem joinPages_last_ne : ∀ (blocks : List (List Elem)),
    (∀ b ∈ blocks, b ≠ [] ∧ b.getLast? ≠ some Elem.pageBreak) →
    (joinPages blocks).getLast? ≠ some Elem.pageBreak
  | [], _ => by simp [joinPages]
  | [b], h => by simpa [joinPages] using (h b (by simp)).2
  | b :: b' :: bs, h => by
      have ih := joinPages_last_ne (b' :: bs) (fun x hx => h x (List.mem_cons_of_mem _ hx))
      have hne : joinPages (b' :: bs) ≠ [] := joinPages_ne_nil b' bs (h b' (by simp)).1
      show (b ++ Elem.pageBreak :: joinPages (b' :: bs)).getLast? ≠ some Elem.pageBreak
      obtain ⟨e, hJ⟩ : ∃ e, (joinPages (b' :: bs)).getLast? = some e := by
        cases hJ0 : (joinPages (b' :: bs)).getLast? with
        | none => exact absurd (List.getLast?_eq_none_iff.1 hJ0) hne
        | some e => exact ⟨e, rfl⟩
      obtain ⟨ys, hys⟩ := List.getLast?_eq_some_iff.1 hJ
      rw [hys]
      have hshape : b ++ Elem.pageBreak :: (ys ++ [e]) = (b ++ Elem.pageBreak :: ys) ++ [e] := by
        simp
      rw [hshape, List.getLast?_concat]
      intro hcon
      apply ih
      rw [hJ]
      simpa using hcon

theorem countBreaks_joinPages : ∀ (blocks : List (List Elem)),
    (∀ b ∈ blocks, countBreaks b = 0) →
    countBreaks (joinPages blocks) = blocks.length - 1
  | [], _ => rfl
  | [b], h => by simpa [joinPages] using h b (by simp)
  | b :: b' :: bs, h => by
      have ih := countBreaks_joinPages (b' :: bs) (fun x hx => h x (List.mem_cons_of_mem _ hx))
      have hb := h b (by simp)
      show countBreaks (b ++ Elem.pageBreak :: joinPages (b' :: bs)) = (b :: b' :: bs).length - 1
      rw [countBreaks_append, countBreaks_cons_break, hb, ih]
      simp

theorem countStickers_joinPages : ∀ (blocks : List (List Elem)),
    (∀ b ∈ blocks, countStickers b = 1) →
    countStickers (joinPages blocks) = blocks.length
  | [], _ => rfl
  | [b], h => by simpa [joinPages] using h b (by simp)
  | b :: b' :: bs, h => by
      have ih := countStickers_joinPages (b' :: bs) (fun x hx => h x (List.mem_cons_of_mem _ hx))
      have hb := h b (by simp)
      show countStickers (b ++ Elem.pageBreak :: joinPages (b' :: bs)) = (b :: b' :: bs).length
      rw [countStickers_append, countStickers_cons_break, hb, ih]
      simp
      omega

theorem loopElems_eq (qrOk : String → Bool) (cm : ColumnMap) :
    ∀ (rows : List Row) (i n : Nat), i + rows.length = n →
      loopElems qrOk cm rows i n = joinPages (rows.map (rowBlock qrOk cm))
  | [], _, _, _ => rfl
  | [r], i, n, hn => by
      have hlt : ¬ i < n - 1 := by simp at hn; omega
      simp [loopElems, joinPages, hlt]
  | r :: r' :: rs, i, n, hn => by
      have hlt : i < n - 1 := by simp at hn; omega
      have ih := loopElems_eq qrOk cm (r' :: rs) (i + 1) n (by simp at hn ⊢; omega)
      show rowBlock qrOk cm r ++ (if i < n - 1 then [Elem.pageBreak] else [])
          ++ loopElems qrOk cm (r' :: rs) (i + 1) n
        = joinPages ((r :: r' :: rs).map (rowBlock qrOk cm))
      rw [if_pos hlt, ih]
      show _ = rowBlock qrOk cm r
          ++ Elem.pageBreak :: joinPages ((r' :: rs).map (rowBlock qrOk cm))
      simp

theorem generate_eq_joinPages (qrOk : String → Bool) (cm : ColumnMap) (rows : List Row) :
    generate_elements qrOk cm rows = joinPages (rows.map (rowBlock qrOk cm)) :=
  loopElems_eq qrOk cm rows 0 rows.length (by simp)

theorem countBreaks_generate (qrOk : String → Bool) (cm : ColumnMap) (rows : List Row) :
    countBreaks (generate_elements qrOk cm rows) = rows.length - 1 := by
  rw [generate_eq_joinPages, countBreaks_joinPages]
  · simp
  · intro b hb
    obtain ⟨r, _, rfl⟩ := List.mem_map.1 hb
    exact countBreaks_rowBlock qrOk cm r

theorem countStickers_generate (qrOk : String → Bool) (cm : ColumnMap) (rows : List Row) :
    countStickers (generate_elements qrOk cm rows) = rows.length := by
  rw [generate_eq_joinPages, countStickers_joinPages]
  · simp
  · intro b hb
    obtain ⟨r, _, rfl⟩ := List.mem_map.1 hb
    exact countStickers_rowBlock qrOk cm r

theorem generate_last_ne (qrOk : String → Bool) (cm : ColumnMap) (rows : List Row) :
    (generate_elements qrOk cm rows).getLast? ≠ some Elem.pageBreak := by
  rw [generate_eq_joinPages]
  apply joinPages_last_ne
  intro b hb
  obtain ⟨r, _, rfl⟩ := List.mem_map.1 hb
  exact ⟨rowBlock_ne_nil qrOk cm r, rowBlock_last_ne qrOk cm r⟩

/-- C3. The element list is the per-row blocks joined with exactly one page
break between adjacent blocks; hence the break count is one less than the row
count, the last element is never a page break, and for a nonempty table the
page count equals the row count. -/
theorem generate_elements_pages (qrOk : String → Bool) (cm : ColumnMap) (rows : List Row) :
    generate_elements qrOk cm rows = joinPages (rows.map (rowBlock qrOk cm)) ∧
    countBreaks (generate_elements qrOk cm rows) = rows.length - 1 ∧
    (generate_elements qrOk cm rows).getLast? ≠ some Elem.pageBreak ∧
    (rows ≠ [] → pageCount (generate_elements qrOk cm rows) = rows.length) := by
  refine ⟨generate_eq_joinPages qrOk cm rows, countBreaks_generate qrOk cm rows,
    generate_last_ne qrOk cm rows, ?_⟩
  intro hrow
  have hlen : 1 ≤ rows.length := by
    cases rows with
    | nil => simp at hrow
    | cons a l => simp
  rw [pageCount, countBreaks_generate]
  omega

/-- Witness for C3 on a concrete 2-row table. -/
theorem generate_elements_pages_witness :
    pageCount (generate_elements (fun _ => true) (resolve_columns []) [[], []]) = 2 :=
  (generate_elements_pages (fun _ => true) (resolve_columns []) [[], []]).2.2.2 (by decide)

/-! ## C4: the end-to-end 2-row scenario -/

/-- C4 counterexample. On the scenario table, page 1's Line Location strip is
not the claimed `["X1", "S3", "R2", "", "", "L4", ""]`: the LEVEL column holds
the empty string and the CELL column holds `"L4"`, so the level slot is empty
and the cell slot holds `"L4"`. -/
theorem c4_strip_counterexample :
    (buildSticker (resolve_columns c4_header) c4_row1).lineParts
      ≠ ["X1", "S3", "R2", "", "", "L4", ""] ∧
    (buildSticker (resolve_columns c4_header) c4_row1).lineParts
      = ["X1", "S3", "R2", "", "", "", "L4"] := by
  constructor
  · decide
  · decide

/-- C4 amended. The scenario table yields a 2-page document (one break
between the two row pages), page 1 carries the first row's sticker, and its
Line Location strip in slot order
`[model, station_no, rack, rack_no_1st, rack_no_2nd, level, cell]` reads
`["X1", "S3", "R2", "", "", "", "L4"]`. -/
theorem c4_scenario :
    pageCount (generate_elements (fun _ => true) (resolve_columns c4_header) c4_rows) = 2 ∧
    countBreaks (generate_elements (fun _ => true) (resolve_columns c4_header) c4_rows) = 1 ∧
    (generate_elements (fun _ => true) (resolve_columns c4_header) c4_rows).getD 1 Elem.spacer
      = Elem.sticker (buildSticker (resolve_columns c4_header) c4_row1)
          (QRCell.image (buildSticker (resolve_columns c4_header) c4_row1).qr_data) ∧
    (resolve_columns c4_header).line
      = ⟨some "MODEL", some "STATION NO", some "RACK", none, none, some "LEVEL", some "CELL"⟩ ∧
    (buildSticker (resolve_columns c4_header) c4_row1).lineParts
      = ["X1", "S3", "R2", "", "", "", "L4"] := by
  refine ⟨?_, ?_, ?_, ?_, ?_⟩ <;> decide

/-! ## C5: temporary-file cleanup -/

/-- C5 counterexample. When `doc.build` raises, `generate_sticker_labels`
returns `None` and `main` takes the error branch without any `os.unlink`, so
the per-invocation temporary file still exists after the run: cleanup is not
guaranteed on the failure path. -/
theorem temp_cleanup_counterexample :
    (main_generate false).1.tempExists = true ∧
    ¬ (∀ buildOk : Bool, (main_generate buildOk).1.tempExists = false) := by
  refine ⟨rfl, ?_⟩
  intro h
  exact absurd (h false) (by decide)

/-- C5 amended. On the success path the temp file is deleted and the output is
produced; on the failure path no output document is produced but the temp
file is left behind (not deleted). -/
theorem temp_cleanup_amended :
    main_generate true = ({ tempExists := false }, true) ∧
    main_generate false = ({ tempExists := true }, false) := by
  exact ⟨rfl, rfl⟩

/-! ## C6: description truncation -/

/-- C6. A description longer than 30 characters renders as exactly its first
30 characters followed by three dots; one of at most 30 characters renders
verbatim. -/
theorem renderDesc_spec (desc : String) :
    (desc.length > 30 →
      (renderDesc desc).data = desc.data.take 30 ++ ('.' :: '.' :: '.' :: [])) ∧
    (desc.length ≤ 30 → renderDesc desc = desc) := by
  constructor
  · intro h
    rw [renderDesc, if_pos h, String.data_append]
  · intro h
    rw [renderDesc, if_neg (by omega)]

/-- Witness for C6 on a 40-character and a 3-character description. -/
theorem renderDesc_spec_witness :
    (renderDesc "0123456789012345678901234567890123456789").data
      = "0123456789012345678901234567890123456789".data.take 30
        ++ ('.' :: '.' :: '.' :: []) ∧
    renderDesc "abc" = "abc" :=
  ⟨(renderDesc_spec _).1 (by decide), (renderDesc_spec _).2 (by decide)⟩

/-! ## C7: the QR payload template -/

/-- C7. Each row's QR payload is exactly the fixed labeled-field template over
the extracted fields, with both 7-part strips joined by the separator
`" | "`; the payload is a pure function of those five fields, so identical
values give a byte-identical payload. -/
theorem qr_payload_spec (cm : ColumnMap) (r : Row) :
    (buildSticker cm r).qr_data
      = payloadTemplate (buildSticker cm r).part_no (buildSticker cm r).desc
          (buildSticker cm r).qty_bin (buildSticker cm r).lineParts
          (buildSticker cm r).storeParts ∧
    ((buildSticker cm r).qr_data).data
      = "Part No: ".data ++ ((buildSticker cm r).part_no).data
        ++ "\nDescription: ".data ++ ((buildSticker cm r).desc).data
        ++ "\nQTY/BIN: ".data ++ ((buildSticker cm r).qty_bin).data ++ "\n".data
        ++ "Line Location: ".data
        ++ (String.intercalate " | " (buildSticker cm r).lineParts).data ++ "\n".data
        ++ "Store Location: ".data
        ++ (String.intercalate " | " (buildSticker cm r).storeParts).data ∧
    (∀ (cm' : ColumnMap) (r' : Row),
      (buildSticker cm r).part_no = (buildSticker cm' r').part_no →
      (buildSticker cm r).desc = (buildSticker cm' r').desc →
      (buildSticker cm r).qty_bin = (buildSticker cm' r').qty_bin →
      (buildSticker cm r).lineParts = (buildSticker cm' r').lineParts →
      (buildSticker cm r).storeParts = (buildSticker cm' r').storeParts →
      (buildSticker cm r).qr_data = (buildSticker cm' r').qr_data) := by
  refine ⟨rfl, ?_, ?_⟩
  · rw [buildSticker_qr_data, payloadTemplate_data]
  · intro cm' r' h1 h2 h3 h4 h5
    rw [buildSticker_qr_data, buildSticker_qr_data, h1, h2, h3, h4, h5]

/-- Witness for C7: two different rows with identical extracted fields give
the identical payload. -/
theorem qr_payload_spec_witness :
    (buildSticker (resolve_columns []) []).qr_data
      = (buildSticker (resolve_columns []) [("X", CellValue.text "y")]).qr_data :=
  (qr_payload_spec (resolve_columns []) []).2.2 (resolve_columns [])
    [("X", CellValue.text "y")] (by decide) (by decide) (by decide) (by decide) (by decide)

/-! ## C8: QR encode failure is per-row and non-fatal -/

/-- C8. A row whose payload the QR encoder rejects still contributes its page,
with the placeholder in place of the QR image; the element list keeps one
sticker per row and its page breaks regardless of which payloads fail. -/
theorem qr_failure_nonfatal (qrOk : String → Bool) (cm : ColumnMap)
    (rows : List Row) (r : Row) :
    (qrOk (buildSticker cm r).qr_data = false →
      rowBlock qrOk cm r
        = [Elem.spacer, Elem.sticker (buildSticker cm r) QRCell.placeholder]) ∧
    (qrOk (buildSticker cm r).qr_data = true →
      rowBlock qrOk cm r
        = [Elem.spacer,
           Elem.sticker (buildSticker cm r) (QRCell.image (buildSticker cm r).qr_data)]) ∧
    countStickers (generate_elements qrOk cm rows) = rows.length ∧
    countBreaks (generate_elements qrOk cm rows) = rows.length - 1 := by
  refine ⟨?_, ?_, countStickers_generate qrOk cm rows, countBreaks_generate qrOk cm rows⟩
  · intro h
    simp [rowBlock, generate_qr_code, h]
  · intro h
    simp [rowBlock, generate_qr_code, h]

/-- Witness for C8 with an encoder that always fails. -/
theorem qr_failure_nonfatal_witness :
    rowBlock (fun _ => false) (resolve_columns []) []
      = [Elem.spacer, Elem.sticker (buildSticker (resolve_columns []) []) QRCell.placeholder] ∧
    countStickers (generate_elements (fun _ => false) (resolve_columns []) [[], []]) = 2 := by
  have h := qr_failure_nonfatal (fun _ => false) (resolve_columns []) [[], []] []
  exact ⟨h.1 rfl, h.2.2.1⟩

/-! ## C9: a missing basic column yields empty fields, not an error -/

/-- C9. When no header column matches the quantity aliases, the resolved
quantity column is `none`, every row's quantity field is the empty string,
and generation still yields one sticker per row with its page breaks. -/
theorem missing_qty_spec (qrOk : String → Bool) (header : List String) (rows : List Row)
    (h : find_column header qty_bin_keywords = none) :
    (∀ r : Row, (buildSticker (resolve_columns header) r).qty_bin = "") ∧
    countStickers (generate_elements qrOk (resolve_columns header) rows) = rows.length ∧
    countBreaks (generate_elements qrOk (resolve_columns header) rows) = rows.length - 1 := by
  refine ⟨?_, countStickers_generate qrOk _ rows, countBreaks_generate qrOk _ rows⟩
  intro r
  rw [buildSticker_qty_bin, resolve_columns_qty_bin, h]
  rfl

/-- Witness for C9 on a header with no quantity-like column. -/
theorem missing_qty_spec_witness :
    (buildSticker (resolve_columns ["PART NO", "DESC"]) []).qty_bin = "" ∧
    countStickers
      (generate_elements (fun _ => true) (resolve_columns ["PART NO", "DESC"]) [[]]) = 1 := by
  have h := missing_qty_spec (fun _ => true) ["PART NO", "DESC"] [[]] (by decide)
  exact ⟨h.1 [], h.2.1⟩

/-! ## C10: asymmetric null handling across the basic fields -/

/-- C10. With resolved columns present in the row and holding null cells, the
part number and description stringify the null to `"nan"` (no `pd.notna`
guard on lines 240-241) and the `"nan"` reaches the QR payload, while the
quantity and every location slot fall back to the empty string. -/
theorem null_asymmetry_spec (cm : ColumnMap) (r : Row) (p d q m : String)
    (hp : cm.part_no_col = some p) (hp0 : p ≠ "") (hpv : Row.get? r p = some CellValue.null)
    (hd : cm.desc_col = some d) (hd0 : d ≠ "") (hdv : Row.get? r d = some CellValue.null)
    (hq : cm.qty_bin_col = some q) (hq0 : q ≠ "") (hqv : Row.get? r q = some CellValue.null)
    (hm : cm.line.model = some m) (hm0 : m ≠ "") (hmv : Row.get? r m = some CellValue.null) :
    (buildSticker cm r).part_no = "nan" ∧
    (buildSticker cm r).desc = "nan" ∧
    (buildSticker cm r).qty_bin = "" ∧
    (buildSticker cm r).lineParts.getD 0 "" = "" ∧
    "Part No: nan".data <+: ((buildSticker cm r).qr_data).data := by
  have h1 : (buildSticker cm r).part_no = "nan" := by
    rw [buildSticker_part_no, hp]
    simp [extractBasicNoNa, hp0, hpv, pyStr]
  have h2 : (buildSticker cm r).desc = "nan" := by
    rw [buildSticker_desc, hd]
    simp [extractBasicNoNa, hd0, hdv, pyStr]
  have h3 : (buildSticker cm r).qty_bin = "" := by
    rw [buildSticker_qty_bin, hq]
    simp [extractCell, hq0, hqv, notna]
  have h4 : (buildSticker cm r).lineParts.getD 0 "" = "" := by
    rw [buildSticker_lineParts]
    show extractCell r cm.line.model = ""
    rw [hm]
    simp [extractCell, hm0, hmv, notna]
  refine ⟨h1, h2, h3, h4, ?_⟩
  rw [buildSticker_qr_data, payloadTemplate_data, h1]
  simp only [List.append_assoc]
  rw [← List.append_assoc "Part No: ".data ("nan" : String).data]
  rw [show ("Part No: ".data ++ ("nan" : String).data : List Char)
        = "Part No: nan".data by decide]
  exact List.prefix_append _ _

/-- Witness for C10 on a concrete column map and all-null row. -/
theorem null_asymmetry_spec_witness :
    (buildSticker
        ⟨some "P", some "D", some "Q",
         ⟨some "M", none, none, none, none, none, none⟩,
         ⟨none, none, none, none, none, none, none⟩⟩
        [("P", CellValue.null), ("D", CellValue.null),
         ("Q", CellValue.null), ("M", CellValue.null)]).part_no = "nan" ∧
    (buildSticker
        ⟨some "P", some "D", some "Q",
         ⟨some "M", none, none, none, none, none, none⟩,
         ⟨none, none, none, none, none, none, none⟩⟩
        [("P", CellValue.null), ("D", CellValue.null),
         ("Q", CellValue.null), ("M", CellValue.null)]).qty_bin = "" := by
  have h := null_asymmetry_spec
    ⟨some "P", some "D", some "Q",
     ⟨some "M", none, none, none, none, none, none⟩,
     ⟨none, none, none, none, none, none, none⟩⟩
    [("P", CellValue.null), ("D", CellValue.null),
     ("Q", CellValue.null), ("M", CellValue.null)]
    "P" "D" "Q" "M" rfl (by decide) (by decide) rfl (by decide) (by decide)
    rfl (by decide) (by decide) rfl (by decide) (by decide)
  exact ⟨h.1, h.2.2.1⟩

end Tote
